import Mathlib

/-!
Verification of the camera-xbee image transfer protocol.

Shallow embedding of the protocol core of the repository:
the sender side (tx.py: split_bytes, wait_for_ack, the send loop of
send_image) and the receiver side (rx.py: data_receive_callback,
DataCleanupService.run, DataStoreService.run).

Bytes are modelled as List Nat; the two 32-bit big-endian header fields
are packed/unpacked via toBE4/fromBE4; signed Python integers (the
frame_counter field starts at -1, frame_counter_end may be -1) become Int;
the receiver session table (the received_data dict keyed by remote device)
becomes a function from endpoint identity (Nat) to Option Session.
struct.error raised on an undersized buffer becomes the .error branch of
Except.
-/

namespace XbeeProto

/-- struct.pack of a 4-byte big-endian unsigned 32-bit value
(tx.py line 92, rx.py line 98). -/
def toBE4 (n : Nat) : List Nat :=
  [n / 2 ^ 24 % 256, n / 2 ^ 16 % 256, n / 2 ^ 8 % 256, n % 256]

/-- struct.unpack of a 4-byte big-endian unsigned 32-bit value
(rx.py lines 57 and 58, tx.py line 61). -/
def fromBE4 (bs : List Nat) : Nat :=
  bs.foldl (fun acc b => acc * 256 + b) 0

/-- tx.py lines 45-49: [data[i : i + chunk_size] for i in range(0, len(data), chunk_size)].
For chunk_size = 0 Python range raises; that branch is unreachable under the
chunk size rules and returns []. -/
def split_bytes (data : List Nat) (chunk_size : Nat) : List (List Nat) :=
  if h1 : data = [] then []
  else if h2 : chunk_size = 0 then []
  else data.take chunk_size :: split_bytes (data.drop chunk_size) chunk_size
termination_by data.length
decreasing_by
  simp only [List.length_drop]
  have h3 : 0 < data.length := List.length_pos.mpr h1
  omega

/-- One entry of the received_data dict (rx.py lines 68-73). -/
structure Session where
  frame_counter : Int
  frame_counter_end : Int
  data : List Nat
  timestamp : Int
deriving DecidableEq

/-- The received_data dict (rx.py line 21), keyed by remote endpoint identity. -/
def Table : Type := Nat → Option Session

/-- Point update of the session table (dict assignment or del). -/
def updateTable (t : Table) (e : Nat) (v : Option Session) : Table :=
  fun x => if x = e then v else t x

/-- The initially empty received_data dict. -/
def emptyTable : Table := fun _ => none

/-- The fresh dict entry created for a new remote device (rx.py lines 68-73):
frame_counter starts at -1, frame_counter_end is the announced total minus 1,
data is empty, timestamp is the -1 sentinel. -/
def init_session (frame_counter_end : Nat) : Session :=
  { frame_counter := -1
    frame_counter_end := (frame_counter_end : Int) - 1
    data := []
    timestamp := -1 }

/-- rx.py lines 57-59: unpack the two 4-byte big-endian counters and slice off the
chunk. struct.unpack raises struct.error when the payload is shorter than the
8-byte header (either the first or the second unpack fails). -/
def decode_frame (payload : List Nat) : Except Unit (Nat × Nat × List Nat) :=
  if payload.length < 8 then .error ()
  else .ok (fromBE4 (payload.take 4), fromBE4 ((payload.drop 4).take 4), payload.drop 8)

/-- rx.py lines 75-91: the body of data_receive_callback once the dict entry for
the remote device exists. table1 is the dict after the possible fresh insert,
s the current entry. Returns the new dict and the list of acknowledgments sent
(send_ack, rx.py line 91). -/
def callback_body (table1 : Table) (remote : Nat) (s : Session) (frame_counter : Nat)
    (chunk : List Nat) (ts : Int) : Except Unit (Table × List Nat) :=
  if s.frame_counter = s.frame_counter_end then
    .ok (table1, [])
  else if (frame_counter : Int) ≠ s.frame_counter + 1 then
    .ok (updateTable table1 remote none, [])
  else
    .ok (updateTable table1 remote
          (some { s with frame_counter := (frame_counter : Int),
                         data := s.data ++ chunk,
                         timestamp := ts }),
         [frame_counter])

/-- rx.py lines 44-91: decode the inbound payload (an undersized one raises,
modelled as .error), create the dict entry for an unknown remote device, then
run the sequence checks and accept or discard. -/
def data_receive_callback (table : Table) (remote : Nat) (payload : List Nat)
    (ts : Int) : Except Unit (Table × List Nat) :=
  match decode_frame payload with
  | .error e => .error e
  | .ok (frame_counter, frame_counter_end, chunk) =>
    match table remote with
    | none =>
      callback_body (updateTable table remote (some (init_session frame_counter_end)))
        remote (init_session frame_counter_end) frame_counter chunk ts
    | some s => callback_body table remote s frame_counter chunk ts

/-- Deliver a list of inbound messages (remote, payload, arrival time) to
data_receive_callback in order; a raised exception leaves the dict untouched
and later messages are still delivered. -/
def run_receiver (table : Table) : List (Nat × List Nat × Int) → Table
  | [] => table
  | (remote, payload, ts) :: rest =>
    match data_receive_callback table remote payload ts with
    | .ok (t1, _) => run_receiver t1 rest
    | .error _ => run_receiver table rest

/-- The accumulated data bytes held for an endpoint (empty when no session). -/
def accumulated (t : Table) (e : Nat) : List Nat :=
  match t e with
  | some s => s.data
  | none => []

/-- Whether the session of an endpoint is complete
(rx.py line 75: frame_counter == frame_counter_end); false when absent. -/
def table_complete (t : Table) (e : Nat) : Bool :=
  match t e with
  | some s => decide (s.frame_counter = s.frame_counter_end)
  | none => false

/-- The wire frames built by the send loop from a chunk list, starting at a given
frame counter (tx.py line 92: pack frame_counter, pack chunk_count, chunk). -/
def frames_from (chunk_count : Nat) : Nat → List (List Nat) → List (List Nat)
  | _, [] => []
  | frame_counter, chunk :: rest =>
    (toBE4 frame_counter ++ toBE4 chunk_count ++ chunk) ::
      frames_from chunk_count (frame_counter + 1) rest

/-- All frames the sender emits for a payload at a given chunk size
(tx.py lines 83-92). -/
def sender_frames (data : List Nat) (chunk_size : Nat) : List (List Nat) :=
  frames_from (split_bytes data chunk_size).length 0 (split_bytes data chunk_size)

/-- rx.py lines 142-152 (DataCleanupService.run), one scan at current_time:
delete every entry whose timestamp is not the -1 sentinel and is older than
the timeout. Deletions are per key, so the scan is a pointwise filter. -/
def cleanup_scan (table : Table) (current_time timeout : Int) : Table :=
  fun e =>
    match table e with
    | none => none
    | some s =>
      if s.timestamp ≠ -1 ∧ current_time - s.timestamp > timeout then none
      else some s

/-- rx.py lines 165-185 (DataStoreService.run), one scan: delete every complete
entry (after persisting its data). -/
def store_scan (table : Table) : Table :=
  fun e =>
    match table e with
    | none => none
    | some s => if s.frame_counter = s.frame_counter_end then none else some s

/-- The data a store scan persists for an endpoint (rx.py lines 167-183):
the accumulated bytes of a complete entry, nothing otherwise. -/
def store_persists (table : Table) (e : Nat) : Option (List Nat) :=
  match table e with
  | none => none
  | some s => if s.frame_counter = s.frame_counter_end then some s.data else none

/-- tx.py lines 51-65: read acknowledgments arriving inside the timeout window
(modelled as the list of their unpacked counters, in arrival order); return
true at the first one matching the expected frame counter, false when the
window closes. -/
def wait_for_ack (msgs : List Nat) (expected : Nat) : Bool :=
  match msgs with
  | [] => false
  | m :: rest => if m = expected then true else wait_for_ack rest expected

/-- tx.py line 28. -/
def MAX_RETRIES : Nat := 3

/-- tx.py lines 95-109: the attempt loop for one chunk. ack gives, per
(frame_counter, attempt), whether a matching acknowledgment arrives in the
window. Returns whether the chunk got through and how many times it was sent.
The last failed attempt raises (caught by the outer loop as failure). -/
def attempt_loop (ack : Nat → Nat → Bool) (fc : Nat) : Nat → Nat → Bool × Nat
  | _, 0 => (true, 0)
  | attempt, remaining + 1 =>
    if ack fc attempt then (true, 1)
    else if attempt = MAX_RETRIES - 1 then (false, 1)
    else
      let p := attempt_loop ack fc (attempt + 1) remaining
      (p.1, p.2 + 1)

/-- tx.py lines 88-117: the while loop over frame_counter, with remaining
chunks as fuel. Returns the final frame_counter (chunks delivered) and the
log of frame counters sent, in order. -/
def send_loop (ack : Nat → Nat → Bool) : Nat → Nat → Nat × List Nat
  | fc, 0 => (fc, [])
  | fc, remaining + 1 =>
    let a := attempt_loop ack fc 0 MAX_RETRIES
    if a.1 then
      let r := send_loop ack (fc + 1) remaining
      (r.1, List.replicate a.2 fc ++ r.2)
    else (fc, List.replicate a.2 fc)

/-- tx.py lines 83-122: send all chunks; report (chunks delivered, chunk count,
send log). Success is reported when the first two components agree
(tx.py lines 119-122). -/
def send_image (ack : Nat → Nat → Bool) (chunks : List (List Nat)) :
    Nat × Nat × List Nat :=
  let chunk_count := chunks.length
  let r := send_loop ack 0 chunk_count
  (r.1, chunk_count, r.2)

/-! Helper lemmas. -/

theorem toBE4_length (n : Nat) : (toBE4 n).length = 4 := rfl

theorem fromBE4_toBE4 (n : Nat) (h : n < 2 ^ 32) : fromBE4 (toBE4 n) = n := by
  simp only [toBE4, fromBE4, List.foldl]
  omega

theorem split_bytes_flatten (data : List Nat) (chunk_size : Nat) (hc : 0 < chunk_size) :
    (split_bytes data chunk_size).flatten = data := by
  rw [split_bytes]
  by_cases h1 : data = []
  · simp [h1]
  · have h2 : chunk_size ≠ 0 := Nat.pos_iff_ne_zero.mp hc
    rw [dif_neg h1, dif_neg h2, List.flatten_cons,
      split_bytes_flatten (data.drop chunk_size) chunk_size hc]
    exact List.take_append_drop chunk_size data
termination_by data.length
decreasing_by
  simp only [List.length_drop]
  have h3 : 0 < data.length := List.length_pos.mpr h1
  omega

theorem split_bytes_nil (chunk_size : Nat) : split_bytes [] chunk_size = [] := by
  rw [split_bytes]
  simp

theorem updateTable_same (t : Table) (e : Nat) (v : Option Session) :
    updateTable t e v e = v := by
  simp [updateTable]

theorem updateTable_updateTable (t : Table) (e : Nat) (v w : Option Session) :
    updateTable (updateTable t e v) e w = updateTable t e w := by
  funext x
  simp only [updateTable]
  by_cases hx : x = e <;> simp [hx]

theorem decode_encode (s t : Nat) (chunk : List Nat) (hs : s < 2 ^ 32) (ht : t < 2 ^ 32) :
    decode_frame (toBE4 s ++ toBE4 t ++ chunk) = .ok (s, t, chunk) := by
  have hlen : (toBE4 s ++ toBE4 t ++ chunk).length = 8 + chunk.length := by
    simp [toBE4]
    omega
  have htake : (toBE4 s ++ toBE4 t ++ chunk).take 4 = toBE4 s := by
    simp [toBE4]
  have hdrop4 : ((toBE4 s ++ toBE4 t ++ chunk).drop 4).take 4 = toBE4 t := by
    simp [toBE4]
  have hdrop8 : (toBE4 s ++ toBE4 t ++ chunk).drop 8 = chunk := by
    simp [toBE4]
  rw [decode_frame, if_neg (by rw [hlen]; omega), htake, hdrop4, hdrop8,
    fromBE4_toBE4 s hs, fromBE4_toBE4 t ht]

theorem callback_existing (table : Table) (remote : Nat) (s : Session) (payload : List Nat)
    (ts : Int) (seq total : Nat) (chunk : List Nat)
    (hdec : decode_frame payload = .ok (seq, total, chunk))
    (hs : table remote = some s) :
    data_receive_callback table remote payload ts =
      callback_body table remote s seq chunk ts := by
  simp only [data_receive_callback, hdec, hs]

theorem callback_fresh (table : Table) (remote : Nat) (payload : List Nat)
    (ts : Int) (seq total : Nat) (chunk : List Nat)
    (hdec : decode_frame payload = .ok (seq, total, chunk))
    (hs : table remote = none) :
    data_receive_callback table remote payload ts =
      data_receive_callback (updateTable table remote (some (init_session total)))
        remote payload ts := by
  simp only [data_receive_callback, hdec, hs, updateTable_same]

theorem callback_body_complete (table1 : Table) (remote : Nat) (s : Session)
    (fc : Nat) (chunk : List Nat) (ts : Int)
    (h : s.frame_counter = s.frame_counter_end) :
    callback_body table1 remote s fc chunk ts = .ok (table1, []) := by
  simp [callback_body, h]

theorem callback_body_mismatch (table1 : Table) (remote : Nat) (s : Session)
    (fc : Nat) (chunk : List Nat) (ts : Int)
    (h1 : s.frame_counter ≠ s.frame_counter_end)
    (h2 : (fc : Int) ≠ s.frame_counter + 1) :
    callback_body table1 remote s fc chunk ts = .ok (updateTable table1 remote none, []) := by
  simp [callback_body, h1, h2]

theorem callback_body_accept (table1 : Table) (remote : Nat) (s : Session)
    (fc : Nat) (chunk : List Nat) (ts : Int)
    (h1 : s.frame_counter ≠ s.frame_counter_end)
    (h2 : (fc : Int) = s.frame_counter + 1) :
    callback_body table1 remote s fc chunk ts =
      .ok (updateTable table1 remote
            (some { s with frame_counter := (fc : Int),
                           data := s.data ++ chunk,
                           timestamp := ts }),
           [fc]) := by
  simp [callback_body, h1, h2]

/-- A run over in-order frames i, i+1, ..., against a session expecting frame i,
accepts them all and appends their chunks in order. -/
theorem run_frames_accept (e : Nat) (ts0 : Int) (n : Nat) (hn : n < 2 ^ 32) :
    ∀ (cs : List (List Nat)) (i : Nat) (s : Session),
      s.frame_counter = (i : Int) - 1 →
      s.frame_counter_end = (n : Int) - 1 →
      i + cs.length ≤ n →
      run_receiver (updateTable emptyTable e (some s))
          ((frames_from n i cs).map (fun p => (e, p, ts0))) =
        updateTable emptyTable e (some
          { frame_counter := (i : Int) + (cs.length : Int) - 1
            frame_counter_end := (n : Int) - 1
            data := s.data ++ cs.flatten
            timestamp := if cs.isEmpty then s.timestamp else ts0 }) := by
  intro cs
  induction cs with
  | nil =>
    intro i s h1 h2 h3
    obtain ⟨fc, fce, d, t⟩ := s
    have h1a : fc = (i : Int) - 1 := h1
    have h2a : fce = (n : Int) - 1 := h2
    subst h1a h2a
    simp only [frames_from, List.map_nil, run_receiver]
    simp
  | cons c cs ih =>
    intro i s h1 h2 h3
    have hi : i < n := by
      simp only [List.length_cons] at h3
      omega
    have hfc : i < 2 ^ 32 := lt_trans hi hn
    have hne : s.frame_counter ≠ s.frame_counter_end := by
      rw [h1, h2]
      intro hcontra
      omega
    have heq : (i : Int) = s.frame_counter + 1 := by
      rw [h1]
      omega
    have hcb : data_receive_callback (updateTable emptyTable e (some s)) e
        (toBE4 i ++ toBE4 n ++ c) ts0 =
        .ok (updateTable emptyTable e
              (some { s with frame_counter := (i : Int), data := s.data ++ c,
                             timestamp := ts0 }),
             [i]) := by
      rw [callback_existing _ _ s _ _ i n c (decode_encode i n c hfc hn)
          (updateTable_same _ _ _),
        callback_body_accept _ _ _ _ _ _ hne heq, updateTable_updateTable]
    simp only [frames_from, List.map_cons, run_receiver, hcb]
    rw [ih (i + 1)
      { s with frame_counter := (i : Int), data := s.data ++ c, timestamp := ts0 }
      (by simp) (by simpa using h2)
      (by simp only [List.length_cons] at h3; omega)]
    refine congrArg _ (congrArg _ ?_)
    simp only [Session.mk.injEq]
    refine ⟨?_, ?_, ?_, ?_⟩
    · simp only [List.length_cons]
      push_cast
      omega
    · trivial
    · simp [List.append_assoc]
    · by_cases hcs : cs.isEmpty <;> simp [hcs]

/-- Delivering the first 1 + cs.length in-order frames of an n-frame transfer to an
empty table builds the session accumulating their chunks in order. -/
theorem run_fresh_total (e : Nat) (ts0 : Int) (n : Nat) (hn : n < 2 ^ 32) (hn1 : 1 ≤ n)
    (c : List Nat) (cs : List (List Nat)) (hlen : (c :: cs).length ≤ n) :
    run_receiver emptyTable ((frames_from n 0 (c :: cs)).map (fun p => (e, p, ts0))) =
      updateTable emptyTable e (some
        { frame_counter := (((c :: cs).length : Nat) : Int) - 1
          frame_counter_end := (n : Int) - 1
          data := (c :: cs).flatten
          timestamp := ts0 }) := by
  have hne : (init_session n).frame_counter ≠ (init_session n).frame_counter_end := by
    simp only [init_session]
    omega
  have heq : ((0 : Nat) : Int) = (init_session n).frame_counter + 1 := by
    simp [init_session]
  have hcb0 : data_receive_callback emptyTable e (toBE4 0 ++ toBE4 n ++ c) ts0 =
      .ok (updateTable emptyTable e
            (some (Session.mk ((0 : Nat) : Int) ((n : Int) - 1) c ts0)), [0]) := by
    simp only [data_receive_callback, decode_encode 0 n c (by decide) hn, emptyTable]
    rw [callback_body_accept _ _ _ _ _ _ hne heq, updateTable_updateTable]
    simp [init_session]
  simp only [frames_from, List.map_cons, run_receiver, hcb0]
  rw [run_frames_accept e ts0 n hn cs 1
    (Session.mk ((0 : Nat) : Int) ((n : Int) - 1) c ts0)
    (by simp) rfl (by simp only [List.length_cons] at hlen; omega)]
  refine congrArg _ (congrArg _ ?_)
  simp only [Session.mk.injEq, init_session, List.nil_append, List.flatten_cons,
    List.length_cons]
  refine ⟨by push_cast; omega, trivial, trivial, ?_⟩
  by_cases hcs : cs.isEmpty <;> simp [hcs]

theorem split_bytes_chunk_le (data : List Nat) (chunk_size : Nat) :
    ∀ ch ∈ split_bytes data chunk_size, ch.length ≤ chunk_size := by
  intro ch hch
  rw [split_bytes] at hch
  by_cases h1 : data = []
  · simp [h1] at hch
  · by_cases h2 : chunk_size = 0
    · rw [dif_neg h1, dif_pos h2] at hch
      simp at hch
    · rw [dif_neg h1, dif_neg h2] at hch
      rcases List.mem_cons.mp hch with h | h
      · rw [h]
        simp
      · exact split_bytes_chunk_le (data.drop chunk_size) chunk_size ch h
termination_by data.length
decreasing_by
  simp only [List.length_drop]
  have h3 : 0 < data.length := List.length_pos.mpr h1
  omega

/-- C1: for every payload P and chunk size C > 0 (with fewer than 2^32 chunks),
the sender splits P into ordered chunks of at most C bytes and encodes each as a
frame [4-byte big-endian sequence index][4-byte big-endian total count][chunk];
the receiver, decoding and accepting those frames in sequence order and
appending each chunk, ends with accumulated bytes exactly equal to P. -/
theorem C1_round_trip (P : List Nat) (C e : Nat) (ts0 : Int)
    (hC : 0 < C) (hn : (split_bytes P C).length < 2 ^ 32) :
    (∀ ch ∈ split_bytes P C, ch.length ≤ C) ∧
    accumulated (run_receiver emptyTable
      ((sender_frames P C).map (fun p => (e, p, ts0)))) e = P := by
  refine ⟨split_bytes_chunk_le P C, ?_⟩
  have hflat := split_bytes_flatten P C hC
  cases hsplit : split_bytes P C with
  | nil =>
    have hP : P = [] := by
      rw [hsplit] at hflat
      simpa using hflat.symm
    rw [sender_frames, hsplit]
    simp [frames_from, run_receiver, accumulated, emptyTable, hP]
  | cons c cs =>
    rw [hsplit] at hflat hn
    rw [sender_frames, hsplit]
    rw [run_fresh_total e ts0 (c :: cs).length hn (by simp) c cs le_rfl]
    simp only [accumulated, updateTable_same]
    exact hflat

theorem C1_round_trip_witness :
    0 < 2 ∧ (split_bytes [1, 2, 3, 4, 5] 2).length < 2 ^ 32 ∧
    ((∀ ch ∈ split_bytes [1, 2, 3, 4, 5] 2, ch.length ≤ 2) ∧
     accumulated (run_receiver emptyTable
       ((sender_frames [1, 2, 3, 4, 5] 2).map (fun p => (7, p, 11)))) 7 =
       [1, 2, 3, 4, 5]) :=
  ⟨by decide, by simp [split_bytes],
   C1_round_trip [1, 2, 3, 4, 5] 2 7 11 (by decide) (by simp [split_bytes])⟩

/-- C2: for every session and every inbound frame, if the frame's sequence index is
not expectedNext + 1 and the session is not already complete, the receiver evicts
the session and discards the frame without sending an acknowledgment; a subsequent
frame from the same endpoint is then processed against a brand-new session whose
expectedNext (frame_counter) is -1. -/
theorem C2_sequence_violation (table : Table) (remote : Nat) (s : Session)
    (payload : List Nat) (ts : Int) (seq total : Nat) (chunk : List Nat)
    (payload2 : List Nat) (ts2 : Int) (seq2 total2 : Nat) (chunk2 : List Nat)
    (hdec : decode_frame payload = .ok (seq, total, chunk))
    (hs : table remote = some s)
    (hnc : s.frame_counter ≠ s.frame_counter_end)
    (hmm : (seq : Int) ≠ s.frame_counter + 1)
    (hdec2 : decode_frame payload2 = .ok (seq2, total2, chunk2)) :
    data_receive_callback table remote payload ts =
      .ok (updateTable table remote none, []) ∧
    updateTable table remote none remote = none ∧
    data_receive_callback (updateTable table remote none) remote payload2 ts2 =
      data_receive_callback
        (updateTable (updateTable table remote none) remote (some (init_session total2)))
        remote payload2 ts2 ∧
    (init_session total2).frame_counter = -1 := by
  refine ⟨?_, updateTable_same _ _ _, ?_, rfl⟩
  · rw [callback_existing table remote s payload ts seq total chunk hdec hs,
      callback_body_mismatch _ _ _ _ _ _ hnc hmm]
  · exact callback_fresh _ _ _ _ seq2 total2 chunk2 hdec2 (updateTable_same _ _ _)

theorem C2_sequence_violation_witness :
    updateTable emptyTable 0 (some (Session.mk 3 9 [5] 2)) 0 =
      some (Session.mk 3 9 [5] 2) ∧
    (Session.mk 3 9 [5] 2).frame_counter ≠ (Session.mk 3 9 [5] 2).frame_counter_end ∧
    ((5 : Nat) : Int) ≠ (Session.mk 3 9 [5] 2).frame_counter + 1 ∧
    (data_receive_callback (updateTable emptyTable 0 (some (Session.mk 3 9 [5] 2))) 0
        (toBE4 5 ++ toBE4 10 ++ [9]) 13 =
      .ok (updateTable (updateTable emptyTable 0 (some (Session.mk 3 9 [5] 2))) 0 none,
           []) ∧
    updateTable (updateTable emptyTable 0 (some (Session.mk 3 9 [5] 2))) 0 none 0 =
      none ∧
    data_receive_callback
        (updateTable (updateTable emptyTable 0 (some (Session.mk 3 9 [5] 2))) 0 none) 0
        (toBE4 0 ++ toBE4 4 ++ [8]) 14 =
      data_receive_callback
        (updateTable
          (updateTable (updateTable emptyTable 0 (some (Session.mk 3 9 [5] 2))) 0 none)
          0 (some (init_session 4)))
        0 (toBE4 0 ++ toBE4 4 ++ [8]) 14 ∧
    (init_session 4).frame_counter = -1) :=
  ⟨rfl, by decide, by decide,
   C2_sequence_violation (updateTable emptyTable 0 (some (Session.mk 3 9 [5] 2))) 0
     (Session.mk 3 9 [5] 2) (toBE4 5 ++ toBE4 10 ++ [9]) 13 5 10 [9]
     (toBE4 0 ++ toBE4 4 ++ [8]) 14 0 4 [8] rfl rfl (by decide) (by decide) rfl⟩

/-- C3: a session announcing totalCount n becomes complete exactly when the frames
0 through n-1 of the transfer have been accepted in order and not before; and for
any table holding a complete session, any further decodable frame for that endpoint
is discarded with no state change and no acknowledgment. -/
theorem C3_completion (n k e : Nat) (chunks : List (List Nat)) (ts0 : Int)
    (table : Table) (remote : Nat) (s : Session) (payload : List Nat) (ts : Int)
    (seq total : Nat) (chunk : List Nat)
    (hlen : chunks.length = n) (hn1 : 1 ≤ n) (hn : n < 2 ^ 32) (hk : k ≤ n)
    (hs : table remote = some s) (hcomp : s.frame_counter = s.frame_counter_end)
    (hdec : decode_frame payload = .ok (seq, total, chunk)) :
    (table_complete (run_receiver emptyTable
        ((frames_from n 0 (chunks.take k)).map (fun p => (e, p, ts0)))) e = true ↔
      k = n) ∧
    data_receive_callback table remote payload ts = .ok (table, []) := by
  constructor
  · rcases k with _ | k1
    · simp only [List.take_zero, frames_from, List.map_nil, run_receiver,
        table_complete, emptyTable]
      constructor
      · intro h
        exact absurd h (by decide)
      · intro h
        omega
    · rcases chunks with _ | ⟨c, cs⟩
      · simp at hlen
        omega
      · simp only [List.length_cons] at hlen
        have hlen2 : (c :: cs.take k1).length ≤ n := by
          simp only [List.length_cons, List.length_take]
          omega
        rw [List.take_succ_cons,
          run_fresh_total e ts0 n hn hn1 c (cs.take k1) hlen2]
        simp only [table_complete, updateTable_same, List.length_cons,
          List.length_take, decide_eq_true_eq]
        have hmin : min k1 cs.length = k1 := by omega
        rw [hmin]
        constructor
        · intro h
          omega
        · intro h
          omega
  · rw [callback_existing table remote s payload ts seq total chunk hdec hs,
      callback_body_complete _ _ _ _ _ _ hcomp]

theorem C3_completion_witness :
    ([[1], [2]] : List (List Nat)).length = 2 ∧ 1 ≤ 2 ∧ 2 < 2 ^ 32 ∧ 2 ≤ 2 ∧
    updateTable emptyTable 1 (some (Session.mk 1 1 [3] 4)) 1 =
      some (Session.mk 1 1 [3] 4) ∧
    (Session.mk 1 1 [3] 4).frame_counter = (Session.mk 1 1 [3] 4).frame_counter_end ∧
    ((table_complete (run_receiver emptyTable
        ((frames_from 2 0 (([[1], [2]] : List (List Nat)).take 2)).map
          (fun p => (0, p, 5)))) 0 = true ↔ (2 : Nat) = 2) ∧
    data_receive_callback (updateTable emptyTable 1 (some (Session.mk 1 1 [3] 4))) 1
        (toBE4 9 ++ toBE4 7 ++ [2]) 6 =
      .ok (updateTable emptyTable 1 (some (Session.mk 1 1 [3] 4)), [])) :=
  ⟨rfl, by decide, by decide, by decide, rfl, rfl,
   C3_completion 2 2 0 [[1], [2]] 5
     (updateTable emptyTable 1 (some (Session.mk 1 1 [3] 4))) 1
     (Session.mk 1 1 [3] 4) (toBE4 9 ++ toBE4 7 ++ [2]) 6 9 7 [2]
     rfl (by decide) (by decide) (by decide) rfl rfl rfl⟩

/-- C4: with maxRetries = 3 and no acknowledgment ever arriving for chunk 1 of a
3-chunk transfer (chunk 0 acknowledged on its first send), the sender sends chunk 1
exactly 3 times, sends chunk 0 only once, aborts, and reports 1 chunk delivered
of 3. -/
theorem C4_retry_exhaustion (ack : Nat → Nat → Bool) (chunks : List (List Nat))
    (hlen : chunks.length = 3) (hack0 : ack 0 0 = true)
    (hack1 : ∀ a, ack 1 a = false) :
    send_image ack chunks = (1, 3, [0, 1, 1, 1]) ∧
    (send_image ack chunks).2.2.count 1 = 3 ∧
    (send_image ack chunks).2.2.count 0 = 1 := by
  have h : send_image ack chunks = (1, 3, [0, 1, 1, 1]) := by
    simp [send_image, send_loop, attempt_loop, MAX_RETRIES, hlen, hack0, hack1,
      List.replicate]
  refine ⟨h, ?_, ?_⟩
  · rw [h]
    decide
  · rw [h]
    decide

theorem C4_retry_exhaustion_witness :
    ([[1], [2], [3]] : List (List Nat)).length = 3 ∧
    (fun i (_ : Nat) => decide (i = 0)) 0 0 = true ∧
    (∀ a, (fun i (_ : Nat) => decide (i = 0)) 1 a = false) ∧
    (send_image (fun i (_ : Nat) => decide (i = 0)) [[1], [2], [3]] =
        (1, 3, [0, 1, 1, 1]) ∧
     (send_image (fun i (_ : Nat) => decide (i = 0)) [[1], [2], [3]]).2.2.count 1 = 3 ∧
     (send_image (fun i (_ : Nat) => decide (i = 0)) [[1], [2], [3]]).2.2.count 0 = 1) :=
  ⟨rfl, rfl, fun _ => rfl,
   C4_retry_exhaustion (fun i (_ : Nat) => decide (i = 0)) [[1], [2], [3]]
     rfl rfl (fun _ => rfl)⟩

/-- C6 counterexample: delivering a 3-byte inbound frame to the receiver entry point
yields the raised-exception outcome (struct.error on unpack), so an error does
propagate out of data_receive_callback, contrary to the claim of a silent discard. -/
theorem C6_counterexample :
    data_receive_callback emptyTable 0 [1, 2, 3] 0 = .error () := rfl

/-- C6 (amended): for every inbound byte sequence shorter than the 8-byte header,
frame decoding fails and the exception propagates uncaught out of
data_receive_callback; no acknowledgment is sent and the session table is left
unchanged (the run over that message continues with the same table). -/
theorem C6_short_frame (table : Table) (remote : Nat) (payload : List Nat) (ts : Int)
    (rest : List (Nat × List Nat × Int)) (h : payload.length < 8) :
    data_receive_callback table remote payload ts = .error () ∧
    run_receiver table ((remote, payload, ts) :: rest) = run_receiver table rest := by
  have herr : data_receive_callback table remote payload ts = .error () := by
    simp [data_receive_callback, decode_frame, h]
  exact ⟨herr, by simp only [run_receiver, herr]⟩

theorem C6_short_frame_witness :
    ([1, 2, 3, 4, 5] : List Nat).length < 8 ∧
    (data_receive_callback emptyTable 2 [1, 2, 3, 4, 5] 9 = .error () ∧
     run_receiver emptyTable ((2, [1, 2, 3, 4, 5], 9) :: [(2, toBE4 0 ++ toBE4 1 ++ [7], 9)]) =
       run_receiver emptyTable [(2, toBE4 0 ++ toBE4 1 ++ [7], 9)]) :=
  ⟨by decide,
   C6_short_frame emptyTable 2 [1, 2, 3, 4, 5] 9 [(2, toBE4 0 ++ toBE4 1 ++ [7], 9)]
     (by decide)⟩

/-- C7 counterexample: for the empty payload the sender produces zero chunks and
sends no frames at all (empty frame list and empty send log, reported as 0 of 0
delivered), not the single empty-chunk frame with totalCount 1 the claim states. -/
theorem C7_counterexample :
    split_bytes [] 247 = [] ∧ sender_frames [] 247 = [] ∧
    (sender_frames [] 247).length = 0 ∧
    send_image (fun _ _ => true) (split_bytes [] 247) = (0, 0, []) := by
  refine ⟨split_bytes_nil 247, ?_, ?_, ?_⟩
  · rw [sender_frames, split_bytes_nil]
    rfl
  · rw [sender_frames, split_bytes_nil]
    rfl
  · rw [split_bytes_nil]
    rfl

/-- C7 (amended): for an empty payload the sender produces zero chunks and sends
nothing: the transfer loop exits immediately, reporting success with 0 chunks
delivered of 0. -/
theorem C7_empty_payload (C : Nat) (ack : Nat → Nat → Bool) (hC : 0 < C) :
    split_bytes [] C = [] ∧ sender_frames [] C = [] ∧
    send_image ack (split_bytes [] C) = (0, 0, []) := by
  refine ⟨split_bytes_nil C, ?_, ?_⟩
  · rw [sender_frames, split_bytes_nil]
    rfl
  · rw [split_bytes_nil]
    rfl

theorem C7_empty_payload_witness :
    0 < 247 ∧
    (split_bytes [] 247 = [] ∧ sender_frames [] 247 = [] ∧
     send_image (fun _ _ => false) (split_bytes [] 247) = (0, 0, [])) :=
  ⟨by decide, C7_empty_payload 247 (fun _ _ => false) (by decide)⟩

/-- C8: after a cleanup scan at time t, every session whose timestamp is set (not
the -1 sentinel, i.e. at least one frame accepted) and older than the timeout is
absent from the table, and every session still carrying the -1 sentinel (no frame
accepted yet) survives the scan unchanged, regardless of its age. -/
theorem C8_timeout_eviction (table : Table) (t timeout : Int) (e : Nat) (s : Session)
    (hs : table e = some s) :
    (s.timestamp ≠ -1 → t - s.timestamp > timeout →
      cleanup_scan table t timeout e = none) ∧
    (s.timestamp = -1 → cleanup_scan table t timeout e = some s) := by
  constructor
  · intro h1 h2
    simp [cleanup_scan, hs, h1, h2]
  · intro h1
    simp [cleanup_scan, hs, h1]

theorem C8_timeout_eviction_witness :
    updateTable (updateTable emptyTable 3 (some (Session.mk 0 1 [2] 10))) 4
        (some (Session.mk (-1) 0 [] (-1))) 3 = some (Session.mk 0 1 [2] 10) ∧
    updateTable (updateTable emptyTable 3 (some (Session.mk 0 1 [2] 10))) 4
        (some (Session.mk (-1) 0 [] (-1))) 4 = some (Session.mk (-1) 0 [] (-1)) ∧
    cleanup_scan (updateTable (updateTable emptyTable 3 (some (Session.mk 0 1 [2] 10)))
        4 (some (Session.mk (-1) 0 [] (-1)))) 100 15 3 = none ∧
    cleanup_scan (updateTable (updateTable emptyTable 3 (some (Session.mk 0 1 [2] 10)))
        4 (some (Session.mk (-1) 0 [] (-1)))) 100 15 4 =
      some (Session.mk (-1) 0 [] (-1)) :=
  ⟨rfl, rfl,
   (C8_timeout_eviction
      (updateTable (updateTable emptyTable 3 (some (Session.mk 0 1 [2] 10))) 4
        (some (Session.mk (-1) 0 [] (-1)))) 100 15 3 (Session.mk 0 1 [2] 10)
      rfl).1 (by decide) (by decide),
   (C8_timeout_eviction
      (updateTable (updateTable emptyTable 3 (some (Session.mk 0 1 [2] 10))) 4
        (some (Session.mk (-1) 0 [] (-1)))) 100 15 4 (Session.mk (-1) 0 [] (-1))
      rfl).2 rfl⟩

/-- C9: while the sender waits for the acknowledgment of the current sequence index,
an acknowledgment for an already-advanced (earlier) sequence index is skipped: the
wait outcome is exactly what it would be without that message, so it neither counts
as the awaited acknowledgment nor aborts the wait. -/
theorem C9_duplicate_ack (earlier expected : Nat) (msgs : List Nat)
    (h : earlier < expected) :
    wait_for_ack (earlier :: msgs) expected = wait_for_ack msgs expected := by
  simp only [wait_for_ack]
  rw [if_neg (Nat.ne_of_lt h)]

theorem C9_duplicate_ack_witness :
    2 < 5 ∧ wait_for_ack (2 :: [3, 5]) 5 = wait_for_ack [3, 5] 5 :=
  ⟨by decide, C9_duplicate_ack 2 5 [3, 5] (by decide)⟩

/-- C10: a first frame announcing totalCount 0 creates a session that is immediately
complete (frame_counter = -1 = frame_counter_end) and is itself discarded with no
acknowledgment; every later decodable frame for that endpoint is likewise discarded
with no state change and no acknowledgment; the timestamp stays at the -1 sentinel
so a cleanup scan never evicts the session; and a store scan persists its empty
accumulated data and evicts it. -/
theorem C10_zero_total (table : Table) (remote seq : Nat) (chunk : List Nat)
    (ts ts2 t_now timeout : Int) (payload2 : List Nat) (seq2 total2 : Nat)
    (chunk2 : List Nat)
    (hseq : seq < 2 ^ 32) (hnone : table remote = none)
    (hdec2 : decode_frame payload2 = .ok (seq2, total2, chunk2)) :
    data_receive_callback table remote (toBE4 seq ++ toBE4 0 ++ chunk) ts =
      .ok (updateTable table remote (some (init_session 0)), []) ∧
    (init_session 0).frame_counter = -1 ∧
    (init_session 0).frame_counter_end = -1 ∧
    (init_session 0).timestamp = -1 ∧
    data_receive_callback (updateTable table remote (some (init_session 0)))
        remote payload2 ts2 =
      .ok (updateTable table remote (some (init_session 0)), []) ∧
    cleanup_scan (updateTable table remote (some (init_session 0))) t_now timeout
        remote = some (init_session 0) ∧
    store_persists (updateTable table remote (some (init_session 0))) remote =
      some [] ∧
    store_scan (updateTable table remote (some (init_session 0))) remote = none := by
  have hdec : decode_frame (toBE4 seq ++ toBE4 0 ++ chunk) = .ok (seq, 0, chunk) :=
    decode_encode seq 0 chunk hseq (by decide)
  have hcomp : (init_session 0).frame_counter = (init_session 0).frame_counter_end := by
    decide
  refine ⟨?_, rfl, by decide, rfl, ?_, ?_, ?_, ?_⟩
  · simp only [data_receive_callback, hdec, hnone]
    rw [callback_body_complete _ _ _ _ _ _ hcomp]
  · rw [callback_existing _ _ (init_session 0) _ _ seq2 total2 chunk2 hdec2
      (updateTable_same _ _ _), callback_body_complete _ _ _ _ _ _ hcomp]
  · simp [cleanup_scan, updateTable_same, init_session]
  · simp [store_persists, updateTable_same, hcomp]
    rfl
  · simp [store_scan, updateTable_same, hcomp]

theorem C10_zero_total_witness :
    (6 : Nat) < 2 ^ 32 ∧ emptyTable 1 = none ∧
    decode_frame (toBE4 2 ++ toBE4 5 ++ [9]) = Except.ok (2, 5, [9]) ∧
    (data_receive_callback emptyTable 1 (toBE4 6 ++ toBE4 0 ++ [4]) 20 =
       .ok (updateTable emptyTable 1 (some (init_session 0)), []) ∧
     (init_session 0).frame_counter = -1 ∧
     (init_session 0).frame_counter_end = -1 ∧
     (init_session 0).timestamp = -1 ∧
     data_receive_callback (updateTable emptyTable 1 (some (init_session 0))) 1
         (toBE4 2 ++ toBE4 5 ++ [9]) 21 =
       .ok (updateTable emptyTable 1 (some (init_session 0)), []) ∧
     cleanup_scan (updateTable emptyTable 1 (some (init_session 0))) 1000 15 1 =
       some (init_session 0) ∧
     store_persists (updateTable emptyTable 1 (some (init_session 0))) 1 = some [] ∧
     store_scan (updateTable emptyTable 1 (some (init_session 0))) 1 = none) :=
  ⟨by decide, rfl, rfl,
   C10_zero_total emptyTable 1 6 [4] 20 21 1000 15 (toBE4 2 ++ toBE4 5 ++ [9]) 2 5 [9]
     (by decide) rfl rfl⟩

end XbeeProto
